import Mathlib

/-!
Shallow embedding of the Ghoti Pool thread pool (src/src/pool.cpp,
src/include/pool.hpp) and of the Aquarium variant (src/src/aquarium.cpp,
src/include/aquarium.hpp).

The embedding is sequential: each C++ critical section (a region executed
under the relevant mutexes) becomes one atomic Lean function on an explicit
state.  Thread identities are natural numbers; a task (Job) is identified by
a numeric tag, since the pool never inspects a task beyond invoking it.
Blocking primitives (condition variable, promise/future, semaphore) are
modelled by their observable effect on the state: a notification is a Bool
recording that notify was called, a promise resolution is recorded in a
resolution log, and the wakeup-predicate of the condition variable becomes a
Bool-valued function of the state.
-/

namespace Ghoti

/-- Model of std thread id: a natural number, handed out by a fresh counter. -/
abbrev ThreadId := Nat

/-- A task (struct Task / struct Job): the pool treats the callable as opaque,
so a job is identified by a numeric tag. -/
abbrev Job := Nat

/-- struct State of pool.cpp (lines 319-366): the shared per-pool state.
`threads` is the set of live workers, `threadsWaiting` the map from worker id
to its waiting flag (association list, first match wins, keys kept unique by
the update functions), `threadsTerminated` the set of workers that have exited
their loop, `jobs` the FIFO task queue (head = front), `terminate` the stop
flag, `targetThreadCount` the desired worker count. -/
structure State where
  threads : Finset ThreadId
  threadsWaiting : List (ThreadId × Bool)
  threadsTerminated : Finset ThreadId
  jobs : List Job
  terminate : Bool
  targetThreadCount : Nat
deriving DecidableEq

/-- map<thread::id, bool> assignment: threadsWaiting[id] = b. -/
def setWaiting (w : List (ThreadId × Bool)) (id : ThreadId) (b : Bool) :
    List (ThreadId × Bool) :=
  (id, b) :: w.filter (fun p => p.1 != id)

/-- map<thread::id, bool> erase: threadsWaiting.erase(id). -/
def eraseWaiting (w : List (ThreadId × Bool)) (id : ThreadId) :
    List (ThreadId × Bool) :=
  w.filter (fun p => p.1 != id)

/-- map<thread::id, bool> lookup: the entry for id, if present. -/
def lookupWaiting (w : List (ThreadId × Bool)) (id : ThreadId) : Option Bool :=
  (w.find? (fun p => p.1 == id)).map (fun p => p.2)

/-- Pool::Pool(size_t) (pool.cpp lines 373-377): fresh state, terminate set to
true, target count as requested, everything else empty. -/
def Pool.mkState (threadCount : Nat) : State :=
  { threads := ∅
    threadsWaiting := []
    threadsTerminated := ∅
    jobs := []
    terminate := true
    targetThreadCount := threadCount }

/-- Pool::getJobQueueCount (pool.cpp lines 449-452). -/
def Pool.getJobQueueCount (s : State) : Nat := s.jobs.length

/-- Pool::getThreadCount (pool.cpp lines 471-474). -/
def Pool.getThreadCount (s : State) : Nat := s.threads.card

/-- Pool::getWaitingThreadCount (pool.cpp lines 477-488): entries of the
waiting map whose flag is true. -/
def Pool.getWaitingThreadCount (s : State) : Nat :=
  (s.threadsWaiting.filter (fun p => p.2)).length

/-- Pool::getRunningThreadCount (pool.cpp lines 497-508): entries of the
waiting map whose flag is false. -/
def Pool.getRunningThreadCount (s : State) : Nat :=
  (s.threadsWaiting.filter (fun p => !p.2)).length

/-- Pool::getTerminatedThreadCount (pool.cpp lines 491-494). -/
def Pool.getTerminatedThreadCount (s : State) : Nat := s.threadsTerminated.card

/-- Pool::enqueue (pool.cpp lines 385-395): under both locks, append the job
to the queue; call notify_one only when terminate is false; return true.
Result: (new state, returned bool, whether notify_one was called). -/
def Pool.enqueue (s : State) (j : Job) : State × Bool × Bool :=
  ({ s with jobs := s.jobs ++ [j] }, true, !s.terminate)

/-- The registry value stored for a created thread (ThreadInfo, pool.cpp line
27): the stop callable (first element of the pair) and the pending exit
notification promises (second element).  `hasStopFun` records whether the
stored std::function is non-empty; `notifiers` counts the pending promises. -/
structure GThreadInfo where
  hasStopFun : Bool
  notifiers : Nat
deriving DecidableEq

/-- The global orchestrator state (pool.cpp lines 32-94): the three work
queues, the registry map, the globalPoolNotStarted gate (true = semaphore
available = no orchestrator started), the number of live orchestrator loop
threads, the set of workers whose cooperative stop signal has been delivered,
the logs of resolved promises, and the fresh thread id counter. -/
structure GlobalState where
  createQueue : List Nat
  stopQueue : List ThreadId
  joinQueue : List ThreadId
  registry : List (ThreadId × GThreadInfo)
  stopFlags : Finset ThreadId
  resolvedCreate : List (Nat × ThreadId)
  resolvedJoin : Nat
  notStarted : Bool
  orchCount : Nat
  nextId : ThreadId
deriving DecidableEq

/-- The initial global state: empty queues and registry, gate available. -/
def GlobalState.init : GlobalState :=
  { createQueue := []
    stopQueue := []
    joinQueue := []
    registry := []
    stopFlags := ∅
    resolvedCreate := []
    resolvedJoin := 0
    notStarted := true
    orchCount := 0
    nextId := 0 }

/-- map<thread::id, ThreadInfo> lookup. -/
def regLookup (r : List (ThreadId × GThreadInfo)) (id : ThreadId) :
    Option GThreadInfo :=
  (r.find? (fun p => p.1 == id)).map (fun p => p.2)

/-- map<thread::id, ThreadInfo> assignment. -/
def regInsert (r : List (ThreadId × GThreadInfo)) (id : ThreadId)
    (info : GThreadInfo) : List (ThreadId × GThreadInfo) :=
  (id, info) :: r.filter (fun p => p.1 != id)

/-- map<thread::id, ThreadInfo> erase. -/
def regErase (r : List (ThreadId × GThreadInfo)) (id : ThreadId) :
    List (ThreadId × GThreadInfo) :=
  r.filter (fun p => p.1 != id)

/-- globalPoolLoop create drain (pool.cpp lines 118-130): for each queued
create-request, spawn the thread (here: allocate a fresh id), detach it, store
ThreadInfo with a default-constructed (empty) stop callable and no promises,
and fulfill the requester's promise with the new id. -/
def processCreates : List Nat → GlobalState → GlobalState
  | [], g => g
  | req :: rest, g =>
    let id := g.nextId
    processCreates rest
      { g with
        registry := regInsert g.registry id { hasStopFun := false, notifiers := 0 }
        resolvedCreate := g.resolvedCreate ++ [(req, id)]
        nextId := id + 1 }

/-- globalPoolLoop stop drain (pool.cpp lines 132-140): for each queued
stop-request, if the id is registered and its stored stop callable is
non-empty, invoke it; the callable, when present, delivers the cooperative
stop signal to that worker (records the id in stopFlags).  As registered, the
callable is empty (processCreates stores hasStopFun = false and nothing in
pool.cpp ever assigns to the first element of a ThreadInfo), so the branch
that delivers the signal is unreachable from the create path. -/
def processStops : List ThreadId → GlobalState → GlobalState
  | [], g => g
  | id :: rest, g =>
    processStops rest
      (match regLookup g.registry id with
       | some info =>
         if info.hasStopFun then { g with stopFlags := insert id g.stopFlags }
         else g
       | none => g)

/-- globalPoolLoop join drain (pool.cpp lines 142-157): for each queued
join-request, if the id is registered, fulfill all its pending exit promises
and erase it from the registry. -/
def processJoins : List ThreadId → GlobalState → GlobalState
  | [], g => g
  | id :: rest, g =>
    processJoins rest
      (match regLookup g.registry id with
       | some info =>
         { g with
           resolvedJoin := g.resolvedJoin + info.notifiers
           registry := regErase g.registry id }
       | none => g)

/-- The drain phase of one globalPoolLoop body (pool.cpp lines 118-157):
drain the create queue, then the stop queue, then the join queue, each
emptied as its entries are popped. -/
def drainAll (g : GlobalState) : GlobalState :=
  let g1 := processCreates g.createQueue { g with createQueue := [] }
  let g2 := processStops g1.stopQueue { g1 with stopQueue := [] }
  processJoins g2.joinQueue { g2 with joinQueue := [] }

/-- One body execution of the globalPoolLoop while-loop (pool.cpp lines
110-179), run under globalMutex after the semaphore is acquired: drain the
create queue, then the stop queue, then the join queue; if afterwards all
three queues and the registry are empty, release the globalPoolNotStarted
gate and break (the orchestrator thread exits).  Returns the new state and
whether the loop broke. -/
def globalPoolIteration (g : GlobalState) : GlobalState × Bool :=
  let g3 := drainAll g
  if g3.createQueue.isEmpty && g3.stopQueue.isEmpty && g3.joinQueue.isEmpty
      && g3.registry.isEmpty then
    ({ g3 with notStarted := true, orchCount := g3.orchCount - 1 }, true)
  else
    (g3, false)

/-- The locked section of createThread (pool.cpp lines 191-205): if the
globalPoolNotStarted gate try_acquire succeeds, spawn the orchestrator thread;
then push the create-request on the queue and release the semaphore. -/
def createThreadEntry (g : GlobalState) (req : Nat) : GlobalState :=
  let g1 :=
    if g.notStarted then { g with notStarted := false, orchCount := g.orchCount + 1 }
    else g
  { g1 with createQueue := g1.createQueue ++ [req] }

/-- stopThreads (pool.cpp lines 286-300): under globalMutex, push every given
id on the global stop queue and release the semaphore. -/
def stopThreads (g : GlobalState) (ids : List ThreadId) : GlobalState :=
  { g with stopQueue := g.stopQueue ++ ids }

/-- joinThreads (pool.cpp lines 212-248): for each given id that is currently
registered, create an exit promise, keep its future, push a stop-request, and
append the promise to the registry entry's notification list.  Returns the
new global state and the number of futures collected. -/
def joinThreadsLoop : List ThreadId → GlobalState → Nat → GlobalState × Nat
  | [], g, k => (g, k)
  | id :: rest, g, k =>
    match regLookup g.registry id with
    | none => joinThreadsLoop rest g k
    | some info =>
      joinThreadsLoop rest
        { g with
          stopQueue := g.stopQueue ++ [id]
          registry := regInsert g.registry id
            { info with notifiers := info.notifiers + 1 } }
        (k + 1)

/-- Pool::createThreads helper: the while-loop body (pool.cpp lines 515-519)
iterated a fixed number of times.  Each iteration asks createThread for one
new worker and inserts the returned id into state.threads; ids come from the
fresh counter f, so each iteration grows the set by exactly one and the
source's while (threads.size() < targetThreadCount) runs exactly
targetThreadCount - threads.size() times.  Returns the new pool state, the
next fresh id, and the list of created worker ids. -/
def createThreadsLoop : Nat → State → ThreadId → State × ThreadId × List ThreadId
  | 0, s, f => (s, f, [])
  | Nat.succ n, s, f =>
    let r := createThreadsLoop n { s with threads := insert f s.threads } (f + 1)
    (r.1, r.2.1, f :: r.2.2)

/-- Pool::createThreads (pool.cpp lines 511-520): under the control lock,
keep creating threads while the live set is smaller than the target.  Note
that terminate is not consulted. -/
def Pool.createThreads (s : State) (fresh : ThreadId) :
    State × ThreadId × List ThreadId :=
  createThreadsLoop (s.targetThreadCount - s.threads.card) s fresh

/-- Pool::start (pool.cpp lines 398-410): if terminate is already false,
return without doing anything; otherwise clear terminate and call
createThreads. -/
def Pool.start (s : State) (fresh : ThreadId) : State × ThreadId × List ThreadId :=
  if s.terminate = false then (s, fresh, [])
  else Pool.createThreads { s with terminate := false } fresh

/-- Pool::setThreadCount (pool.cpp lines 455-468): set targetThreadCount
under the control lock, then call createThreads unconditionally, then
notify_all. -/
def Pool.setThreadCount (s : State) (n : Nat) (fresh : ThreadId) :
    State × ThreadId × List ThreadId :=
  Pool.createThreads { s with targetThreadCount := n } fresh

/-- Pool::stop (pool.cpp lines 413-424): under both locks set terminate and
call stopThreads on the current live set; then notify_all.  Returns
immediately; neither the live set, the waiting map, nor the job queue is
touched. -/
def Pool.stop (s : State) (g : GlobalState) : State × GlobalState :=
  ({ s with terminate := true }, stopThreads g (s.threads.sort (· ≤ ·)))

/-- Pool::~Pool (pool.cpp lines 380-382): the destructor body is exactly a
call to stop(). -/
def poolDestructor (s : State) (g : GlobalState) : State × GlobalState :=
  Pool.stop s g

/-- Pool::join (pool.cpp lines 427-446): call joinThreads on the current live
set (collecting one future per registered live worker), then under the
control lock set terminate and clear the live set, notify_all, and block on
each collected future.  Returns the new pool state, the new global state, and
the number of futures awaited. -/
def Pool.join (s : State) (g : GlobalState) : State × GlobalState × Nat :=
  let r := joinThreadsLoop (s.threads.sort (· ≤ ·)) g 0
  ({ s with terminate := true, threads := ∅ }, r.1, r.2)

/-- Modelled from the spec: the spec sentence for Pool destruction reads
"Destruction: equivalent to join()", so the spec-side destructor is Pool.join
with the future count dropped.  Used only to compare against poolDestructor,
which is translated from the code. -/
def destructorSpec (s : State) (g : GlobalState) : State × GlobalState :=
  ((Pool.join s g).1, (Pool.join s g).2.1)

/-- The exit condition re-checked by the worker under the control lock after
waking (pool.cpp lines 552-554): terminate, or the live set exceeds the
target, or the jthread stop token reports a stop request. -/
def exitCond (s : State) (stopRequested : Bool) : Bool :=
  s.terminate || decide (s.targetThreadCount < s.threads.card) || stopRequested

/-- The condition-variable wakeup predicate (pool.cpp lines 540-546): any
exit condition, or a non-empty job queue. -/
def waitPred (s : State) (stopRequested : Bool) : Bool :=
  exitCond s stopRequested || !s.jobs.isEmpty

/-- Outcome of one iteration of the worker loop.
exited: the worker removed itself and broke out of the loop;
ran: the worker executed the given job normally and will loop again;
crashed: the job raised and the exception escaped threadLoop (no handler in
pool.cpp), so the worker performs no further bookkeeping and never reaches
another iteration — in the real program the escaping exception terminates
the process;
blocked: the wakeup predicate was false, the worker is still inside the
condition-variable wait. -/
inductive IterResult where
  | exited (s : State)
  | ran (s : State) (j : Job)
  | crashed (s : State)
  | blocked (s : State)
deriving DecidableEq

/-- The pool state carried by an iteration outcome. -/
def IterResult.state : IterResult → State
  | .exited s => s
  | .ran s _ => s
  | .crashed s => s
  | .blocked s => s

/-- Whether the iteration ended with a normally executed job (the worker
survives into its next iteration). -/
def IterResult.isRan : IterResult → Bool
  | .ran _ _ => true
  | _ => false

/-- Whether the iteration ended with the worker removing itself and exiting
the loop. -/
def IterResult.isExited : IterResult → Bool
  | .exited _ => true
  | _ => false

/-- One iteration of threadLoop (pool.cpp lines 527-572), atomically: set the
caller's waiting flag to true; wait until the predicate holds; re-check the
exit conditions under the control lock — if any holds, erase self from
threads and threadsWaiting, insert self into threadsTerminated, and break;
otherwise set the waiting flag to false, pop the front job, release the queue
lock, and execute the job.  jobThrows says whether the executed job raises;
pool.cpp wraps the call job.function() in no handler, so a raising job makes
the iteration end in crashed.  The exit decision is made once per wakeup: a
worker that passes the re-check runs exactly one job before re-evaluating. -/
def threadLoopIter (s : State) (id : ThreadId) (stopRequested : Bool)
    (jobThrows : Bool) : IterResult :=
  let s1 : State := { s with threadsWaiting := setWaiting s.threadsWaiting id true }
  if waitPred s1 stopRequested then
    if exitCond s1 stopRequested then
      IterResult.exited
        { s1 with
          threads := s1.threads.erase id
          threadsWaiting := eraseWaiting s1.threadsWaiting id
          threadsTerminated := insert id s1.threadsTerminated }
    else
      match s1.jobs with
      | [] => IterResult.blocked s1
      | j :: rest =>
        let s2 : State :=
          { s1 with
            threadsWaiting := setWaiting s1.threadsWaiting id false
            jobs := rest }
        if jobThrows then IterResult.crashed s2 else IterResult.ran s2 j
  else
    IterResult.blocked s1

/-- The Aquarium variant's pool (aquarium.hpp lines 28-72, fields jobs and
terminate; the thread vector and synchronization primitives carry no
queue-observable data). -/
structure Aquarium where
  jobs : List Job
  terminate : Bool
deriving DecidableEq

/-- Aquarium variant enqueue (aquarium.cpp lines 51-66): under the queue
lock, refuse (return false, queue untouched) when terminate is set; otherwise
append and notify one thread.  Result: (new state, returned bool, whether
notify_one was called). -/
def Aquarium.enqueue (a : Aquarium) (j : Job) : Aquarium × Bool × Bool :=
  if a.terminate then (a, false, false)
  else ({ a with jobs := a.jobs ++ [j] }, true, true)

/-- Aquarium variant hasJobsWaiting (aquarium.cpp lines 68-71): returns
jobs.empty(). -/
def Aquarium.hasJobsWaiting (a : Aquarium) : Bool := a.jobs.isEmpty

/-- Invariant for the orchestrator gate: at most one orchestrator loop thread
is live, and while the notStarted gate is available none is live. -/
def orchInv (g : GlobalState) : Prop :=
  g.orchCount ≤ 1 ∧ (g.notStarted = true → g.orchCount = 0)

instance (g : GlobalState) : Decidable (orchInv g) :=
  inferInstanceAs (Decidable (_ ∧ _))

/-- Concrete pool state: one live worker (id 0), not terminating, target 1,
one queued job. -/
def sOneWorker : State :=
  { threads := {0}
    threadsWaiting := []
    threadsTerminated := ∅
    jobs := [3]
    terminate := false
    targetThreadCount := 1 }

/-- Concrete pool state for the worker-loop witness: one live worker, one
queued job with tag 5. -/
def sWit : State :=
  { threads := {0}
    threadsWaiting := []
    threadsTerminated := ∅
    jobs := [5]
    terminate := false
    targetThreadCount := 1 }

/-- Concrete stopped pool as built by Pool::Pool(0). -/
def sStopped : State := Pool.mkState 0

/-- Concrete global state after the orchestrator drains one create-request
(request tag 5) starting from the initial state: worker id 0 is registered
with an empty stop callable. -/
def gOneCreated : GlobalState := processCreates [5] GlobalState.init

/-- Concrete global state with one live orchestrator and nothing queued. -/
def gIdleOrch : GlobalState :=
  { GlobalState.init with notStarted := false, orchCount := 1 }

/-- Concrete Aquarium state with terminate set and an empty queue. -/
def aqStopped : Aquarium := { jobs := [], terminate := true }

/-! Helper lemmas. -/

theorem find?_filter_ne (w : List (ThreadId × Bool)) (id : ThreadId) :
    (w.filter (fun p => p.1 != id)).find? (fun p => p.1 == id) = none := by
  rw [List.find?_eq_none]
  intro x hx
  have hmem := List.of_mem_filter hx
  simp only [bne_iff_ne, ne_eq] at hmem
  simp only [beq_iff_eq]
  exact hmem

theorem lookupWaiting_erase (w : List (ThreadId × Bool)) (id : ThreadId) :
    lookupWaiting (eraseWaiting w id) id = none := by
  simp [lookupWaiting, eraseWaiting, find?_filter_ne]

theorem lookupWaiting_set (w : List (ThreadId × Bool)) (id : ThreadId) (b : Bool) :
    lookupWaiting (setWaiting w id b) id = some b := by
  simp [lookupWaiting, setWaiting, List.find?]

theorem createThreadsLoop_frame (n : Nat) : ∀ (s : State) (f : ThreadId),
    ((createThreadsLoop n s f).1).threadsTerminated = s.threadsTerminated ∧
    ((createThreadsLoop n s f).1).jobs = s.jobs ∧
    ((createThreadsLoop n s f).1).terminate = s.terminate ∧
    ((createThreadsLoop n s f).1).threadsWaiting = s.threadsWaiting := by
  induction n with
  | zero => intro s f; exact ⟨rfl, rfl, rfl, rfl⟩
  | succ n ih =>
    intro s f
    simpa [createThreadsLoop] using ih { s with threads := insert f s.threads } (f + 1)

theorem processStops_fix_of_no_stopFun :
    ∀ (ids : List ThreadId) (g : GlobalState),
    (∀ p ∈ g.registry, p.2.hasStopFun = false) → processStops ids g = g := by
  intro ids
  induction ids with
  | nil => intro g _; rfl
  | cons id rest ih =>
    intro g hg
    have hmatch : (match regLookup g.registry id with
        | some info =>
          if info.hasStopFun then { g with stopFlags := insert id g.stopFlags }
          else g
        | none => g) = g := by
      rcases hl : regLookup g.registry id with _ | info
      · rfl
      · unfold regLookup at hl
        rcases hfind : List.find? (fun p => p.1 == id) g.registry with _ | pr
        · rw [hfind] at hl; simp at hl
        · rw [hfind] at hl
          simp only [Option.map_some'] at hl
          have hmem := List.mem_of_find?_eq_some hfind
          have hfalse := hg pr hmem
          have hinfo : info.hasStopFun = false := by
            rw [← Option.some.inj hl]; exact hfalse
          simp [hinfo]
    calc processStops (id :: rest) g
        = processStops rest (match regLookup g.registry id with
            | some info =>
              if info.hasStopFun then { g with stopFlags := insert id g.stopFlags }
              else g
            | none => g) := rfl
      _ = processStops rest g := by rw [hmatch]
      _ = g := ih g hg

theorem processCreates_frame : ∀ (q : List Nat) (g : GlobalState),
    (processCreates q g).notStarted = g.notStarted ∧
    (processCreates q g).orchCount = g.orchCount ∧
    (processCreates q g).createQueue = g.createQueue ∧
    (processCreates q g).stopQueue = g.stopQueue ∧
    (processCreates q g).joinQueue = g.joinQueue := by
  intro q
  induction q with
  | nil => intro g; exact ⟨rfl, rfl, rfl, rfl, rfl⟩
  | cons req rest ih =>
    intro g
    simpa [processCreates] using ih _

theorem processStops_frame : ∀ (ids : List ThreadId) (g : GlobalState),
    (processStops ids g).notStarted = g.notStarted ∧
    (processStops ids g).orchCount = g.orchCount ∧
    (processStops ids g).createQueue = g.createQueue ∧
    (processStops ids g).stopQueue = g.stopQueue ∧
    (processStops ids g).joinQueue = g.joinQueue ∧
    (processStops ids g).registry = g.registry := by
  intro ids
  induction ids with
  | nil => intro g; exact ⟨rfl, rfl, rfl, rfl, rfl, rfl⟩
  | cons id rest ih =>
    intro g
    have hstep := ih (match regLookup g.registry id with
      | some info =>
        if info.hasStopFun then { g with stopFlags := insert id g.stopFlags }
        else g
      | none => g)
    rcases hl : regLookup g.registry id with _ | info
    · simpa [processStops, hl] using ih g
    · rcases hf : info.hasStopFun with _ | _
      · simpa [processStops, hl, hf] using ih g
      · simpa [processStops, hl, hf] using
          ih { g with stopFlags := insert id g.stopFlags }

theorem processJoins_frame : ∀ (ids : List ThreadId) (g : GlobalState),
    (processJoins ids g).notStarted = g.notStarted ∧
    (processJoins ids g).orchCount = g.orchCount ∧
    (processJoins ids g).createQueue = g.createQueue ∧
    (processJoins ids g).stopQueue = g.stopQueue ∧
    (processJoins ids g).joinQueue = g.joinQueue := by
  intro ids
  induction ids with
  | nil => intro g; exact ⟨rfl, rfl, rfl, rfl, rfl⟩
  | cons id rest ih =>
    intro g
    rcases hl : regLookup g.registry id with _ | info
    · simpa [processJoins, hl] using ih g
    · simpa [processJoins, hl] using
        ih { g with
              resolvedJoin := g.resolvedJoin + info.notifiers
              registry := regErase g.registry id }

theorem joinThreadsLoop_count_le :
    ∀ (l : List ThreadId) (g : GlobalState) (k : Nat),
    (joinThreadsLoop l g k).2 ≤ k + l.length := by
  intro l
  induction l with
  | nil => intro g k; simp [joinThreadsLoop]
  | cons id rest ih =>
    intro g k
    rcases hl : regLookup g.registry id with _ | info
    · have := ih g k
      simp only [joinThreadsLoop, hl]
      calc (joinThreadsLoop rest g k).2 ≤ k + rest.length := this
        _ ≤ k + (rest.length + 1) := by omega
        _ = k + (id :: rest).length := by simp
    · simp only [joinThreadsLoop, hl]
      have := ih { g with
        stopQueue := g.stopQueue ++ [id]
        registry := regInsert g.registry id
          { info with notifiers := info.notifiers + 1 } } (k + 1)
      calc (joinThreadsLoop rest _ (k + 1)).2 ≤ (k + 1) + rest.length := this
        _ = k + (id :: rest).length := by simp; omega

/-- C10: in the Aquarium variant, hasJobsWaiting returns true exactly when the
job queue is empty — the negation of what its name suggests — for every queue
state. -/
theorem C10_hasJobsWaiting_inverted (a : Aquarium) :
    (Aquarium.hasJobsWaiting a = true ↔ a.jobs = []) ∧
    (Aquarium.hasJobsWaiting a = false ↔ a.jobs ≠ []) := by
  cases h : a.jobs with
  | nil => simp [Aquarium.hasJobsWaiting, h]
  | cons x t => simp [Aquarium.hasJobsWaiting, h]

/-- C5 counterexample: on the Aquarium variant with terminate set, enqueue
returns false, appends nothing, and notifies nobody — refuting, at this
concrete input, the claim that enqueue appends and returns true for every
pool state. -/
theorem C5_cex_aquarium_enqueue_rejects :
    (Aquarium.enqueue aqStopped 7).2.1 = false ∧
    (Aquarium.enqueue aqStopped 7).1.jobs = [] ∧
    (Aquarium.enqueue aqStopped 7).2.2 = false := by decide

/-- C5 amended: the main Pool's enqueue appends the task and returns true
unconditionally and calls notify_one exactly when the pool is not
terminating; the Aquarium variant instead refuses when terminate is set
(returns false, queue untouched, no notification) and appends, returns true,
and notifies otherwise. -/
theorem C5_enqueue_amended (s : State) (a : Aquarium) (j : Job) :
    (Pool.enqueue s j).1.jobs = s.jobs ++ [j] ∧
    (Pool.enqueue s j).2.1 = true ∧
    ((Pool.enqueue s j).2.2 = true ↔ s.terminate = false) ∧
    Pool.getJobQueueCount (Pool.enqueue s j).1 = Pool.getJobQueueCount s + 1 ∧
    (Pool.enqueue s j).1.terminate = s.terminate ∧
    (Pool.enqueue s j).1.threads = s.threads ∧
    (Pool.enqueue s j).1.threadsWaiting = s.threadsWaiting ∧
    (Aquarium.enqueue a j).2.1 = !a.terminate ∧
    (Aquarium.enqueue a j).1.jobs =
      (if a.terminate then a.jobs else a.jobs ++ [j]) ∧
    (Aquarium.enqueue a j).2.2 = !a.terminate := by
  refine ⟨rfl, rfl, ?_, ?_, rfl, rfl, rfl, ?_, ?_, ?_⟩
  · simp [Pool.enqueue]
  · simp [Pool.enqueue, Pool.getJobQueueCount]
  · cases h : a.terminate <;> simp [Aquarium.enqueue, h]
  · cases h : a.terminate <;> simp [Aquarium.enqueue, h]
  · cases h : a.terminate <;> simp [Aquarium.enqueue, h]

/-- C3: evaluation at the failing input.  On a pool in the Stopped state
(terminate true, as built by Pool::Pool(0)), setThreadCount(1) does not only
update targetCount: createThreads is called unconditionally and spawns one
worker (id 0), which is inserted into the live set — contradicting the claim
(and the setThreadCount documentation in pool.hpp) that no thread is created
while the pool is stopped. -/
theorem C3_setThreadCount_spawns_while_stopped :
    sStopped.terminate = true ∧
    Pool.getThreadCount sStopped = 0 ∧
    (Pool.setThreadCount sStopped 1 0).1.targetThreadCount = 1 ∧
    (Pool.setThreadCount sStopped 1 0).2.2 = [0] ∧
    (Pool.setThreadCount sStopped 1 0).1.threads = {0} ∧
    (Pool.setThreadCount sStopped 1 0).1.terminate = true := by decide

/-- C2: the orchestrator's stop-request processing never delivers a stop
signal.  After the create drain registers worker 0 (gOneCreated), the
registry entry holds an empty stop callable (hasStopFun false, exactly what
pool.cpp line 126 stores and nothing ever overwrites), so draining a
stop-request for the registered id 0 — or any sequence of stop-requests —
changes nothing and leaves every stop flag unset, contradicting the claim
that a stop-request for a registered identity sets the worker's stop
signal. -/
theorem C2_stop_request_never_delivered :
    regLookup gOneCreated.registry 0 =
      some { hasStopFun := false, notifiers := 0 } ∧
    processStops [0] gOneCreated = gOneCreated ∧
    (processStops [0] gOneCreated).stopFlags = ∅ ∧
    (∀ ids : List ThreadId, processStops ids gOneCreated = gOneCreated) := by
  refine ⟨by decide, by decide, by decide, ?_⟩
  intro ids
  exact processStops_fix_of_no_stopFun ids gOneCreated (by decide)

/-- C1 counterexample: on a pool with one live worker, the destructor (which
pool.cpp lines 380-382 defines as a call to stop()) leaves a different pool
state than join(): the destructor leaves the live set untouched ({0}) while
join clears it, so destruction is not equivalent to join at this concrete
input. -/
theorem C1_cex_destructor_not_join :
    (poolDestructor sOneWorker GlobalState.init).1 ≠
      (destructorSpec sOneWorker GlobalState.init).1 ∧
    (poolDestructor sOneWorker GlobalState.init).1.threads = {0} ∧
    (destructorSpec sOneWorker GlobalState.init).1.threads = ∅ := by decide

/-- C1 amended: destroying a Pool is equivalent to calling stop(), not
join(): it sets terminate, pushes a stop-request for every live worker on the
orchestrator's stop queue, and wakes all workers, but returns immediately —
it does not clear the live set, the waiting map, or the job queue, and does
not wait for workers to exit.  No worker is aborted mid-task and none is
orphaned: every worker that reaches its next predicate check after the
destructor ran exits the loop cooperatively. -/
theorem C1_destructor_is_stop (s : State) (g : GlobalState) :
    poolDestructor s g = Pool.stop s g ∧
    (poolDestructor s g).1.terminate = true ∧
    (poolDestructor s g).1.threads = s.threads ∧
    (poolDestructor s g).1.threadsWaiting = s.threadsWaiting ∧
    (poolDestructor s g).1.jobs = s.jobs ∧
    (poolDestructor s g).2.stopQueue = g.stopQueue ++ s.threads.sort (· ≤ ·) ∧
    (∀ id r b, (threadLoopIter (poolDestructor s g).1 id r b).isExited = true) := by
  refine ⟨rfl, rfl, rfl, rfl, rfl, rfl, ?_⟩
  intro id r b
  simp [threadLoopIter, waitPred, exitCond, poolDestructor, Pool.stop,
    IterResult.isExited]

/-- C4 counterexample: with one live worker, no exit condition, and a queued
job whose execution raises, the worker-loop iteration ends neither in a
normal continuation (isRan false) nor in a clean exit (isExited false): the
exception escapes the loop while the worker is still in the live set with its
waiting flag false, refuting the claim that the worker survives with its
bookkeeping restored. -/
theorem C4_cex_exception_kills_worker :
    (threadLoopIter sOneWorker 0 false true).isRan = false ∧
    (threadLoopIter sOneWorker 0 false true).isExited = false ∧
    0 ∈ (threadLoopIter sOneWorker 0 false true).state.threads ∧
    lookupWaiting (threadLoopIter sOneWorker 0 false true).state.threadsWaiting 0 =
      some false := by decide

/-- C4 amended: a task that raises is not caught by the worker loop
(pool.cpp calls job.function() outside any handler): after dequeuing the
head job, the exception escapes the iteration — the worker stays in the live
set, its waiting-map entry stays present with value false, nothing is added
to threadsTerminated, and the worker does not proceed to a next iteration or
retirement check (in the real program the escaping exception terminates the
process). -/
theorem C4_exception_escapes (s : State) (id : ThreadId) (stopReq : Bool)
    (j : Job) (rest : List Job)
    (hexit : exitCond s stopReq = false) (hjobs : s.jobs = j :: rest) :
    ∃ s', threadLoopIter s id stopReq true = IterResult.crashed s' ∧
      s'.threads = s.threads ∧
      lookupWaiting s'.threadsWaiting id = some false ∧
      s'.jobs = rest ∧
      s'.threadsTerminated = s.threadsTerminated ∧
      (threadLoopIter s id stopReq true).isRan = false ∧
      (threadLoopIter s id stopReq true).isExited = false := by
  have hexit1 : exitCond
      { s with threadsWaiting := setWaiting s.threadsWaiting id true }
      stopReq = false := hexit
  have hpred1 : waitPred
      { s with threadsWaiting := setWaiting s.threadsWaiting id true }
      stopReq = true := by
    simp [waitPred, hexit1, hjobs]
  rw [hjobs] at hexit1 hpred1
  refine ⟨{ threads := s.threads
            threadsWaiting := setWaiting (setWaiting s.threadsWaiting id true) id false
            threadsTerminated := s.threadsTerminated
            jobs := rest
            terminate := s.terminate
            targetThreadCount := s.targetThreadCount },
    ?_, rfl, lookupWaiting_set _ _ _, rfl, rfl, ?_, ?_⟩
  · simp [threadLoopIter, hjobs, hpred1, hexit1]
  · simp [threadLoopIter, hjobs, hpred1, hexit1, IterResult.isRan]
  · simp [threadLoopIter, hjobs, hpred1, hexit1, IterResult.isExited]

/-- C4 amended witness: the amended statement instantiated at the concrete
one-worker state with queued job 3. -/
theorem C4_exception_escapes_witness :
    ∃ s', threadLoopIter sOneWorker 0 false true = IterResult.crashed s' ∧
      s'.threads = sOneWorker.threads ∧
      lookupWaiting s'.threadsWaiting 0 = some false ∧
      s'.jobs = [] ∧
      s'.threadsTerminated = sOneWorker.threadsTerminated ∧
      (threadLoopIter sOneWorker 0 false true).isRan = false ∧
      (threadLoopIter sOneWorker 0 false true).isExited = false :=
  C4_exception_escapes sOneWorker 0 false 3 [] (by decide) (by decide)

/-- C6: one iteration of the worker loop, under the wakeup predicate (which
the condition-variable wait guarantees).  If any exit condition holds at the
post-wakeup re-check (terminate, the stop signal, or an excess live count),
the worker erases itself from the live set and the waiting map, records
itself as terminated, and exits the loop without touching the job queue;
otherwise it sets its waiting flag to false, dequeues exactly the head (FIFO)
job and runs it, ending the iteration — the exit decision is taken once per
wakeup, so a non-excess worker runs exactly one task before re-evaluating. -/
theorem C6_worker_iteration (s : State) (id : ThreadId) (stopReq : Bool)
    (hpred : waitPred s stopReq = true) :
    (exitCond s stopReq = true →
      ∃ s', threadLoopIter s id stopReq false = IterResult.exited s' ∧
        id ∉ s'.threads ∧
        lookupWaiting s'.threadsWaiting id = none ∧
        id ∈ s'.threadsTerminated ∧
        s'.jobs = s.jobs) ∧
    (exitCond s stopReq = false →
      ∃ s' j rest, s.jobs = j :: rest ∧
        threadLoopIter s id stopReq false = IterResult.ran s' j ∧
        s'.jobs = rest ∧
        lookupWaiting s'.threadsWaiting id = some false ∧
        s'.threads = s.threads ∧
        s'.threadsTerminated = s.threadsTerminated) := by
  constructor
  · intro hex
    have hex1 : exitCond
        { s with threadsWaiting := setWaiting s.threadsWaiting id true }
        stopReq = true := hex
    have hpred1 : waitPred
        { s with threadsWaiting := setWaiting s.threadsWaiting id true }
        stopReq = true := by
      simp [waitPred, hex1]
    refine ⟨{ threads := s.threads.erase id
              threadsWaiting := eraseWaiting (setWaiting s.threadsWaiting id true) id
              threadsTerminated := insert id s.threadsTerminated
              jobs := s.jobs
              terminate := s.terminate
              targetThreadCount := s.targetThreadCount },
      ?_, Finset.not_mem_erase id s.threads, lookupWaiting_erase _ _,
      Finset.mem_insert_self id s.threadsTerminated, rfl⟩
    simp [threadLoopIter, hpred1, hex1]
  · intro hex
    have hjobs : ∃ j rest, s.jobs = j :: rest := by
      have : !s.jobs.isEmpty = true := by
        rw [waitPred, hex] at hpred
        simpa using hpred
      cases hj : s.jobs with
      | nil => rw [hj] at this; simp at this
      | cons j rest => exact ⟨j, rest, rfl⟩
    rcases hjobs with ⟨j, rest, hjobs⟩
    have hex1 : exitCond
        { s with threadsWaiting := setWaiting s.threadsWaiting id true }
        stopReq = false := hex
    have hpred1 : waitPred
        { s with threadsWaiting := setWaiting s.threadsWaiting id true }
        stopReq = true := hpred
    rw [hjobs] at hex1 hpred1
    refine ⟨{ threads := s.threads
              threadsWaiting := setWaiting (setWaiting s.threadsWaiting id true) id false
              threadsTerminated := s.threadsTerminated
              jobs := rest
              terminate := s.terminate
              targetThreadCount := s.targetThreadCount },
      j, rest, hjobs, ?_, rfl, lookupWaiting_set _ _ _, rfl, rfl⟩
    simp [threadLoopIter, hjobs, hpred1, hex1]

/-- C6 witness: the non-exit branch of the worker-loop theorem instantiated
at the concrete one-worker state sWit with queued job 5. -/
theorem C6_worker_iteration_witness :
    ∃ s' j rest, sWit.jobs = j :: rest ∧
      threadLoopIter sWit 0 false false = IterResult.ran s' j ∧
      s'.jobs = rest ∧
      lookupWaiting s'.threadsWaiting 0 = some false ∧
      s'.threads = sWit.threads ∧
      s'.threadsTerminated = sWit.threadsTerminated :=
  (C6_worker_iteration sWit 0 false (by decide)).2 (by decide)

/-- C7: join always completes for every pool state (in this sequential model
it is a total function whose blocking part waits on finitely many futures,
one per registered live worker, bounded by the live count), and afterwards
the live set is empty (getThreadCount 0) while the job queue is exactly what
it was before the call — queued-but-undispatched tasks are preserved.
Moreover every worker that reaches its next predicate check after join exits
the loop cooperatively, which is what resolves each awaited future. -/
theorem C7_join_effect (s : State) (g : GlobalState) :
    Pool.getThreadCount (Pool.join s g).1 = 0 ∧
    (Pool.join s g).1.jobs = s.jobs ∧
    Pool.getJobQueueCount (Pool.join s g).1 = Pool.getJobQueueCount s ∧
    (Pool.join s g).1.terminate = true ∧
    (Pool.join s g).2.2 ≤ Pool.getThreadCount s ∧
    (∀ id r b, (threadLoopIter (Pool.join s g).1 id r b).isExited = true) := by
  refine ⟨?_, rfl, rfl, rfl, ?_, ?_⟩
  · simp [Pool.join, Pool.getThreadCount]
  · have h := joinThreadsLoop_count_le (s.threads.sort (· ≤ ·)) g 0
    simpa [Pool.join, Pool.getThreadCount, Finset.length_sort] using h
  · intro id r b
    simp [threadLoopIter, waitPred, exitCond, Pool.join, IterResult.isExited]

theorem start_terminated_eq (s : State) (f : ThreadId) :
    ((Pool.start s f).1).threadsTerminated = s.threadsTerminated := by
  by_cases h : s.terminate = false
  · simp [Pool.start, h]
  · simp only [Pool.start, h, if_false, Pool.createThreads]
    exact (createThreadsLoop_frame _ { s with terminate := false } f).1

theorem setThreadCount_terminated_eq (s : State) (n : Nat) (f : ThreadId) :
    ((Pool.setThreadCount s n f).1).threadsTerminated = s.threadsTerminated := by
  simp only [Pool.setThreadCount, Pool.createThreads]
  exact (createThreadsLoop_frame _ { s with targetThreadCount := n } f).1

theorem threadLoopIter_terminated_cases (s : State) (id : ThreadId)
    (r b : Bool) :
    ((threadLoopIter s id r b).state).threadsTerminated =
      s.threadsTerminated ∨
    ((threadLoopIter s id r b).state).threadsTerminated =
      insert id s.threadsTerminated := by
  simp only [threadLoopIter]
  split
  · split
    · right; simp [IterResult.state]
    · split
      · left; simp [IterResult.state]
      · split
        · left; simp [IterResult.state]
        · left; simp [IterResult.state]
  · left; simp [IterResult.state]

/-- C9: the terminated set only grows.  A worker-loop iteration either leaves
threadsTerminated unchanged or inserts exactly the worker's own identity
(and on every stop-signalled wakeup, when the worker exits its loop, it does
insert it); no public pool operation (enqueue, start, stop, join,
setThreadCount) removes or clears entries.  Consequently
getTerminatedThreadCount is monotonically non-decreasing across every
operation: a cumulative count since construction, not a snapshot of
exited-but-not-yet-reaped workers. -/
theorem C9_terminated_monotone :
    (∀ s j, s.threadsTerminated ⊆ ((Pool.enqueue s j).1).threadsTerminated) ∧
    (∀ s f, s.threadsTerminated ⊆ ((Pool.start s f).1).threadsTerminated) ∧
    (∀ s g, s.threadsTerminated ⊆ ((Pool.stop s g).1).threadsTerminated) ∧
    (∀ s g, s.threadsTerminated ⊆ ((Pool.join s g).1).threadsTerminated) ∧
    (∀ s n f, s.threadsTerminated ⊆
      ((Pool.setThreadCount s n f).1).threadsTerminated) ∧
    (∀ s id r b, s.threadsTerminated ⊆
      ((threadLoopIter s id r b).state).threadsTerminated) ∧
    (∀ s id r b, ((threadLoopIter s id r b).state).threadsTerminated =
        s.threadsTerminated ∨
      ((threadLoopIter s id r b).state).threadsTerminated =
        insert id s.threadsTerminated) ∧
    (∀ s id b, (threadLoopIter s id true b).isExited = true ∧
      ((threadLoopIter s id true b).state).threadsTerminated =
        insert id s.threadsTerminated) ∧
    (∀ s id r b, Pool.getTerminatedThreadCount s ≤
      Pool.getTerminatedThreadCount ((threadLoopIter s id r b).state)) ∧
    (∀ s n f, Pool.getTerminatedThreadCount s ≤
      Pool.getTerminatedThreadCount ((Pool.setThreadCount s n f).1)) := by
  have hsub : ∀ s id r b, s.threadsTerminated ⊆
      ((threadLoopIter s id r b).state).threadsTerminated := by
    intro s id r b
    rcases threadLoopIter_terminated_cases s id r b with h | h
    · rw [h]
    · rw [h]; exact Finset.subset_insert _ _
  refine ⟨?_, ?_, ?_, ?_, ?_, hsub, threadLoopIter_terminated_cases, ?_, ?_, ?_⟩
  · intro s j; simp [Pool.enqueue]
  · intro s f; rw [start_terminated_eq]
  · intro s g; simp [Pool.stop]
  · intro s g; simp [Pool.join]
  · intro s n f; rw [setThreadCount_terminated_eq]
  · intro s id b
    constructor
    · simp [threadLoopIter, waitPred, exitCond, IterResult.isExited]
    · simp [threadLoopIter, waitPred, exitCond, IterResult.state]
  · intro s id r b
    exact Finset.card_le_card (hsub s id r b)
  · intro s n f
    rw [Pool.getTerminatedThreadCount, Pool.getTerminatedThreadCount,
      setThreadCount_terminated_eq]

theorem drainAll_gate (g : GlobalState) :
    (drainAll g).notStarted = g.notStarted ∧
    (drainAll g).orchCount = g.orchCount := by
  simp only [drainAll]
  generalize hg1 : processCreates g.createQueue { g with createQueue := [] } = g1
  have hc := processCreates_frame g.createQueue { g with createQueue := [] }
  rw [hg1] at hc
  generalize hg2 : processStops g1.stopQueue { g1 with stopQueue := [] } = g2
  have hs := processStops_frame g1.stopQueue { g1 with stopQueue := [] }
  rw [hg2] at hs
  have hjj := processJoins_frame g2.joinQueue { g2 with joinQueue := [] }
  exact ⟨hjj.1.trans (hs.1.trans hc.1), hjj.2.1.trans (hs.2.1.trans hc.2.1)⟩

/-- C8: the exactly-once gate admits at most one orchestrator at any time —
the entry section of createThread spawns one only when the notStarted gate is
available, and preserves the invariant that the live orchestrator count never
exceeds one — and the orchestrator loop breaks only in a state where the
create-, stop-, and join-queues and the registry are all empty, releasing the
notStarted gate (so a later create-request spawns a fresh orchestrator); a
non-breaking iteration leaves the gate and the orchestrator count
unchanged. -/
theorem C8_orchestrator_gate :
    (∀ g req, orchInv g → orchInv (createThreadEntry g req)) ∧
    (∀ g req, g.notStarted = true →
      (createThreadEntry g req).orchCount = g.orchCount + 1 ∧
      (createThreadEntry g req).notStarted = false) ∧
    (∀ g req, g.notStarted = false →
      (createThreadEntry g req).orchCount = g.orchCount ∧
      (createThreadEntry g req).notStarted = false) ∧
    (∀ g, orchInv g → g.orchCount = 1 → orchInv (globalPoolIteration g).1) ∧
    (∀ g, (globalPoolIteration g).2 = true →
      (globalPoolIteration g).1.createQueue = [] ∧
      (globalPoolIteration g).1.stopQueue = [] ∧
      (globalPoolIteration g).1.joinQueue = [] ∧
      (globalPoolIteration g).1.registry = [] ∧
      (globalPoolIteration g).1.notStarted = true) ∧
    (∀ g, (globalPoolIteration g).2 = false →
      (globalPoolIteration g).1.notStarted = g.notStarted ∧
      (globalPoolIteration g).1.orchCount = g.orchCount) := by
  refine ⟨?_, ?_, ?_, ?_, ?_, ?_⟩
  · intro g req hinv
    cases hn : g.notStarted with
    | false =>
      constructor
      · simpa [createThreadEntry, hn] using hinv.1
      · intro h
        simp [createThreadEntry, hn] at h
    | true =>
      have h0 := hinv.2 hn
      constructor
      · simp [createThreadEntry, hn, h0]
      · intro h
        simp [createThreadEntry, hn] at h
  · intro g req hn
    simp [createThreadEntry, hn]
  · intro g req hn
    simp [createThreadEntry, hn]
  · intro g hinv h1
    have hgate := drainAll_gate g
    have ho : (drainAll g).orchCount = 1 := by rw [hgate.2]; exact h1
    have hns : g.notStarted = false := by
      cases hn : g.notStarted
      · rfl
      · have := hinv.2 hn
        omega
    by_cases hc : ((drainAll g).createQueue.isEmpty
        && (drainAll g).stopQueue.isEmpty && (drainAll g).joinQueue.isEmpty
        && (drainAll g).registry.isEmpty) = true
    · have hred : globalPoolIteration g =
          ({ drainAll g with
              notStarted := true
              orchCount := (drainAll g).orchCount - 1 }, true) := by
        simp only [globalPoolIteration]
        rw [if_pos hc]
      rw [hred]
      constructor
      · show (drainAll g).orchCount - 1 ≤ 1
        omega
      · intro _
        show (drainAll g).orchCount - 1 = 0
        rw [ho]
    · have hred : globalPoolIteration g = (drainAll g, false) := by
        simp only [globalPoolIteration]
        rw [if_neg hc]
      rw [hred]
      constructor
      · show (drainAll g).orchCount ≤ 1
        rw [ho]
      · intro h
        have h2 : (drainAll g).notStarted = true := h
        rw [hgate.1, hns] at h2
        simp at h2
  · intro g hbrk
    by_cases hc : ((drainAll g).createQueue.isEmpty
        && (drainAll g).stopQueue.isEmpty && (drainAll g).joinQueue.isEmpty
        && (drainAll g).registry.isEmpty) = true
    · have hred : globalPoolIteration g =
          ({ drainAll g with
              notStarted := true
              orchCount := (drainAll g).orchCount - 1 }, true) := by
        simp only [globalPoolIteration]
        rw [if_pos hc]
      rw [hred]
      simp only [Bool.and_eq_true, List.isEmpty_iff] at hc
      exact ⟨hc.1.1.1, hc.1.1.2, hc.1.2, hc.2, rfl⟩
    · have hred : globalPoolIteration g = (drainAll g, false) := by
        simp only [globalPoolIteration]
        rw [if_neg hc]
      rw [hred] at hbrk
      simp at hbrk
  · intro g hnb
    by_cases hc : ((drainAll g).createQueue.isEmpty
        && (drainAll g).stopQueue.isEmpty && (drainAll g).joinQueue.isEmpty
        && (drainAll g).registry.isEmpty) = true
    · have hred : globalPoolIteration g =
          ({ drainAll g with
              notStarted := true
              orchCount := (drainAll g).orchCount - 1 }, true) := by
        simp only [globalPoolIteration]
        rw [if_pos hc]
      rw [hred] at hnb
      simp at hnb
    · have hred : globalPoolIteration g = (drainAll g, false) := by
        simp only [globalPoolIteration]
        rw [if_neg hc]
      rw [hred]
      exact ⟨(drainAll_gate g).1, (drainAll_gate g).2⟩

/-- C8 witness: the gate theorem instantiated at the initial global state (a
first create-request spawns the one orchestrator) and at an idle running
orchestrator with empty queues (its iteration breaks with everything empty
and the gate released). -/
theorem C8_orchestrator_gate_witness :
    orchInv (createThreadEntry GlobalState.init 0) ∧
    orchInv (globalPoolIteration gIdleOrch).1 ∧
    ((globalPoolIteration gIdleOrch).1.createQueue = [] ∧
     (globalPoolIteration gIdleOrch).1.stopQueue = [] ∧
     (globalPoolIteration gIdleOrch).1.joinQueue = [] ∧
     (globalPoolIteration gIdleOrch).1.registry = [] ∧
     (globalPoolIteration gIdleOrch).1.notStarted = true) :=
  ⟨C8_orchestrator_gate.1 GlobalState.init 0 (by decide),
   C8_orchestrator_gate.2.2.2.1 gIdleOrch (by decide) (by decide),
   C8_orchestrator_gate.2.2.2.2.1 gIdleOrch (by decide)⟩
